import Mathlib

/-!
Verification of the qualification / contractor-matching core of this
repository against its specification.

The shallow embedding below follows the TypeScript source of the Reddit
API service (`getRedditAccessToken`, `getTop`, `verifyRedditUser`).
Asynchronous HTTP effects are modelled by explicit "world" records that
say what each outbound call would return (either a thrown transport
error or an HTTP response), and each embedded function additionally
returns the list of events (token-provider invocations and network
requests) it performed, so that claims about which calls happen can be
stated and proved.

JavaScript conventions reproduced here:
  * an exception is a JS `Error` carrying a `message` string;
  * `fetch` resolves with a response for every HTTP status and throws
    only on transport failure; `response.ok` means status in 200..299;
  * `process.env.X` is `undefined` (modelled `none`) when unset, and
    `!s` is true for `undefined` and for the empty string;
  * template interpolation of `undefined` produces the text "undefined".
-/

/-- A JavaScript `Error` value: all the source ever reads from one is
its `message`. -/
structure JsError where
  message : String
deriving Repr, DecidableEq

/-- JS truthiness of an optional environment string: `undefined` and
`""` are falsy, every other string is truthy. -/
def truthy : Option String → Bool
  | none => false
  | some s => !(s == "")

/-- `response.ok` of the fetch API: HTTP status in the range 200..299. -/
def respOk (status : Nat) : Bool :=
  decide (200 ≤ status) && decide (status ≤ 299)

/-- UTF-8 encoding of one character, as byte values  (used only to model
`Buffer.from(...)` faithfully; no claim inspects these bytes). -/
def utf8Bytes (c : Char) : List Nat :=
  let n := c.toNat
  if n < 128 then [n]
  else if n < 2048 then [192 + n / 64, 128 + n % 64]
  else if n < 65536 then [224 + n / 4096, 128 + n / 64 % 64, 128 + n % 64]
  else [240 + n / 262144, 128 + n / 4096 % 64, 128 + n / 64 % 64, 128 + n % 64]

/-- UTF-8 bytes of a string. -/
def stringBytes (s : String) : List Nat :=
  s.data.foldr (fun c acc => utf8Bytes c ++ acc) []

/-- The base64 alphabet. -/
def base64Alphabet : List Char :=
  "ABCDEFGHIJKLMNOPQRSTUVWXYZabcdefghijklmnopqrstuvwxyz0123456789+/".data

/-- One base64 digit. -/
def base64Char (n : Nat) : Char :=
  base64Alphabet.getD n (Char.ofNat 65)

/-- Base64-encode a byte list, three bytes at a time, `=`-padded
(`Char.ofNat 61` is the padding character). -/
def base64Chunks : List Nat → List Char
  | [] => []
  | [b1] =>
      [base64Char (b1 / 4), base64Char (b1 % 4 * 16), Char.ofNat 61, Char.ofNat 61]
  | [b1, b2] =>
      [base64Char (b1 / 4), base64Char (b1 % 4 * 16 + b2 / 16),
       base64Char (b2 % 16 * 4), Char.ofNat 61]
  | b1 :: b2 :: b3 :: rest =>
      base64Char (b1 / 4) :: base64Char (b1 % 4 * 16 + b2 / 16) ::
      base64Char (b2 % 16 * 4 + b3 / 64) :: base64Char (b3 % 64) :: base64Chunks rest

/-- `Buffer.from(s).toString("base64")` of the source. -/
def bufferBase64 (s : String) : String :=
  String.mk (base64Chunks (stringBytes s))

/-- JS template interpolation of a possibly-`undefined` string. -/
def jsShow : Option String → String
  | none => "undefined"
  | some s => s

/-- `String.prototype.includes`: is `needle` a contiguous substring of
`s`?  (char-list prefix test …) -/
def charsPrefix : List Char → List Char → Bool
  | [], _ => true
  | _ :: _, [] => false
  | a :: as, b :: bs => a == b && charsPrefix as bs

/-- … and the substring scan itself. -/
def charsInfix (pat : List Char) : List Char → Bool
  | [] => charsPrefix pat []
  | b :: bs => charsPrefix pat (b :: bs) || charsInfix pat bs

/-- `s.includes(needle)` of JavaScript. -/
def jsIncludes (s needle : String) : Bool :=
  charsInfix needle.data s.data

/-- The relevant slice of `process.env`. -/
structure Env where
  REDDIT_CLIENT_ID : Option String
  REDDIT_CLIENT_SECRET : Option String
deriving Repr, DecidableEq

/-- The options record passed to `fetch` (RequestInit).  `signal` is the
only mechanism the fetch API has for bounding a request in time; the
source never sets one, which is what claims about timeouts inspect. -/
structure FetchInit where
  method : Option String
  headers : List (String × String)
  body : Option String
  signal : Option Nat
deriving Repr, DecidableEq

/-- One observable event of a run: the token provider being invoked, the
POST to the token endpoint actually going out, or an authenticated
resource GET going out. -/
inductive NetEvent where
  | tokenAcquisition : NetEvent
  | tokenEndpointPost : FetchInit → NetEvent
  | resourceGet : String → FetchInit → NetEvent
deriving Repr, DecidableEq

/-- Response of the token endpoint as the source consumes it: status,
`await response.text()`, and the `access_token` field of
`await response.json()` (parsing may throw; the field may be absent). -/
structure TokenResponse where
  status : Nat
  bodyText : String
  jsonAccessToken : Except JsError (Option String)

/-- Behaviour of the token-endpoint POST: a thrown transport error or a
response. -/
structure TokenWorld where
  fetchResult : Except JsError TokenResponse

/-- Response of `GET /user/{name}/about` as the source consumes it: only
`response.ok`, i.e. the status, is ever read. -/
structure AboutResponse where
  status : Nat

/-- Behaviour of the user-about GET. -/
structure AboutWorld where
  fetchResult : Except JsError AboutResponse

/-- One Reddit post, as in the `RedditPost` interface of the source. -/
structure RedditPost where
  id : String
  title : String
  author : String
  score : Int
  subreddit : String
  url : String
  created_utc : Int
deriving Repr, DecidableEq

/-- Response of the subreddit-top GET as the source consumes it: status,
body text, and the posts obtained by `data.data.children.map(c => c.data)`
after `await response.json()` (either of which may throw). -/
structure TopResponse where
  status : Nat
  bodyText : String
  jsonChildren : Except JsError (List RedditPost)

/-- Behaviour of the subreddit-top GET. -/
structure TopWorld where
  fetchResult : Except JsError TopResponse

/-- The RequestInit built for the token-endpoint POST (source lines
35–43): method POST, Basic auth over `clientId:clientSecret`, form
content type, User-Agent, client-credentials body, and no abort signal. -/
def tokenFetchInit (clientId clientSecret : String) : FetchInit :=
  { method := some "POST"
  , headers :=
      [ ("Authorization", "Basic " ++ bufferBase64 (clientId ++ ":" ++ clientSecret))
      , ("Content-Type", "application/x-www-form-urlencoded")
      , ("User-Agent", "FairDataUse/1.0.0") ]
  , body := some "grant_type=client_credentials"
  , signal := none }

/-- The RequestInit built for both authenticated GETs (source lines
67–75 and 104–112): a Bearer header over the token, a User-Agent, and
nothing else — in particular no abort signal. -/
def bearerGetInit (accessToken : Option String) : FetchInit :=
  { method := none
  , headers :=
      [ ("Authorization", "Bearer " ++ jsShow accessToken)
      , ("User-Agent", "FairDataUse/1.0.0") ]
  , body := none
  , signal := none }

/-- `getRedditAccessToken` of the source.  Reads the two env secrets; if
either is falsy, throws "Reddit API credentials not configured" before
any network traffic.  Otherwise POSTs to the token endpoint; a non-ok
response throws "Failed to get Reddit OAuth token: " followed by the
body text; otherwise the (possibly absent) `access_token` field of the
parsed JSON is returned.  The event list records the invocation itself
(`tokenAcquisition`) and the POST when it is issued. -/
def getRedditAccessToken (env : Env) (w : TokenWorld) :
    Except JsError (Option String) × List NetEvent :=
  if !(truthy env.REDDIT_CLIENT_ID) || !(truthy env.REDDIT_CLIENT_SECRET) then
    (Except.error ⟨"Reddit API credentials not configured"⟩, [NetEvent.tokenAcquisition])
  else
    let clientId := env.REDDIT_CLIENT_ID.getD ""
    let clientSecret := env.REDDIT_CLIENT_SECRET.getD ""
    let evs := [NetEvent.tokenAcquisition,
                NetEvent.tokenEndpointPost (tokenFetchInit clientId clientSecret)]
    match w.fetchResult with
    | Except.error e => (Except.error e, evs)
    | Except.ok resp =>
      if !(respOk resp.status) then
        (Except.error ⟨"Failed to get Reddit OAuth token: " ++ resp.bodyText⟩, evs)
      else
        match resp.jsonAccessToken with
        | Except.error e => (Except.error e, evs)
        | Except.ok tok => (Except.ok tok, evs)

/-- The `try` block of `verifyRedditUser` (source lines 101–114):
acquire a token, GET `/user/{username}/about`, return `response.ok`.
Any step may throw. -/
def verifyRedditUserTry (username : String) (env : Env) (tw : TokenWorld)
    (aw : AboutWorld) : Except JsError Bool × List NetEvent :=
  match getRedditAccessToken env tw with
  | (Except.error e, evs) => (Except.error e, evs)
  | (Except.ok tok, evs) =>
    let evs2 := evs ++
      [NetEvent.resourceGet ("https://oauth.reddit.com/user/" ++ username ++ "/about")
        (bearerGetInit tok)]
    match aw.fetchResult with
    | Except.error e => (Except.error e, evs2)
    | Except.ok resp => (Except.ok (respOk resp.status), evs2)

/-- `verifyRedditUser` of the source: the `try` block above wrapped in
the `catch` of lines 115–118, which logs and returns `false` for every
thrown error. -/
def verifyRedditUser (username : String) (env : Env) (tw : TokenWorld)
    (aw : AboutWorld) : Except JsError Bool × List NetEvent :=
  match verifyRedditUserTry username env tw aw with
  | (Except.error _, evs) => (Except.ok false, evs)
  | ok => ok

/-- How `getTop`'s `try` block consumes the outcome of the subreddit-top
GET (source lines 77–88): a transport error propagates; status 429
throws "Reddit API rate limit exceeded"; any other non-ok status throws
"Reddit API error: {status} - {body}"; otherwise the parsed posts (whose
extraction may itself throw) are returned. -/
def handleTopResponse (fr : Except JsError TopResponse) :
    Except JsError (List RedditPost) :=
  match fr with
  | Except.error e => Except.error e
  | Except.ok resp =>
    if resp.status == 429 then
      Except.error ⟨"Reddit API rate limit exceeded"⟩
    else if !(respOk resp.status) then
      Except.error ⟨"Reddit API error: " ++ toString resp.status ++ " - " ++ resp.bodyText⟩
    else
      match resp.jsonChildren with
      | Except.error e => Except.error e
      | Except.ok posts => Except.ok posts

/-- The `try` block of `getTop` (source lines 64–88): acquire a token,
GET the subreddit's top listing, consume the response as above. -/
def getTopTry (subreddit : String) (limit : Int) (env : Env) (tw : TokenWorld)
    (w : TopWorld) : Except JsError (List RedditPost) × List NetEvent :=
  match getRedditAccessToken env tw with
  | (Except.error e, evs) => (Except.error e, evs)
  | (Except.ok tok, evs) =>
    (handleTopResponse w.fetchResult,
     evs ++
      [NetEvent.resourceGet
        ("https://oauth.reddit.com/r/" ++ subreddit ++ "/top.json?limit=" ++ toString limit)
        (bearerGetInit tok)])

/-- The needle of the source's rate-limit test. -/
def rateLimitNeedle : String := "rate limit"

/-- The wrapping text of `getTop`'s generic catch. -/
def failMsgHead : String := "Failed to fetch Reddit top posts: "

/-- The `catch` of `getTop` (source lines 89–94): an error whose message
contains "rate limit" is re-thrown unchanged, every other error's
message is wrapped in "Failed to fetch Reddit top posts: …"; a success
passes through. -/
def getTopCatch (r : Except JsError (List RedditPost)) :
    Except JsError (List RedditPost) :=
  match r with
  | Except.error e =>
    if jsIncludes e.message rateLimitNeedle then Except.error e
    else Except.error ⟨failMsgHead ++ e.message⟩
  | ok => ok

/-- `getTop` of the source: the `try` block wrapped in the `catch`. -/
def getTop (subreddit : String) (limit : Int) (env : Env) (tw : TokenWorld)
    (w : TopWorld) : Except JsError (List RedditPost) × List NetEvent :=
  match getTopTry subreddit limit env tw w with
  | (r, evs) => (getTopCatch r, evs)

/-- Is an event the token provider being invoked? -/
def isTokenAcquisitionEvent : NetEvent → Bool
  | NetEvent.tokenAcquisition => true
  | _ => false

/-- Is an event a network request going out (either kind)? -/
def isNetworkRequestEvent : NetEvent → Bool
  | NetEvent.tokenEndpointPost _ => true
  | NetEvent.resourceGet _ _ => true
  | _ => false

/-- Does an event carry a bounded timeout (an abort signal on its
RequestInit)?  Non-network events vacuously do not. -/
def eventHasTimeout : NetEvent → Bool
  | NetEvent.tokenEndpointPost req => req.signal.isSome
  | NetEvent.resourceGet _ req => req.signal.isSome
  | NetEvent.tokenAcquisition => false

/-! ### Concrete fixtures used by counterexamples and witnesses -/

/-- An environment with both credentials configured (values as in the
repository's backend test setup). -/
def envOK : Env := ⟨some "test_client_id", some "test_client_secret"⟩

/-- An environment missing the client identifier. -/
def envNoId : Env := ⟨none, some "test_client_secret"⟩

/-- A token endpoint that answers 200 with a token (as the repository's
mock does). -/
def twOK : TokenWorld := ⟨Except.ok ⟨200, "", Except.ok (some "mock_access_token_12345")⟩⟩

/-- A token endpoint answering 500 with body "boom". -/
def twBad500 : TokenWorld := ⟨Except.ok ⟨500, "boom", Except.ok none⟩⟩

/-- A token endpoint answering 403 with the same body "boom". -/
def twBad403 : TokenWorld := ⟨Except.ok ⟨403, "boom", Except.ok none⟩⟩

/-- A verification GET answering 200. -/
def aw200 : AboutWorld := ⟨Except.ok ⟨200⟩⟩

/-- A verification GET answering 404. -/
def aw404 : AboutWorld := ⟨Except.ok ⟨404⟩⟩

/-- A verification GET answering 429. -/
def aw429 : AboutWorld := ⟨Except.ok ⟨429⟩⟩

/-- A verification GET answering 500. -/
def aw500 : AboutWorld := ⟨Except.ok ⟨500⟩⟩

/-- A verification GET whose transport throws. -/
def awNetErr : AboutWorld := ⟨Except.error ⟨"fetch failed"⟩⟩

/-! ### C1 -/

/-- C1: the claim states that on HTTP 429 `verifyRedditUser` yields a
`RateLimitedError` and in particular does not return `false`.  The code
returns `response.ok`, so a 429 response makes the call return plain
`false` with no error of any kind — here at the concrete username
"knownuser" with a working token endpoint. -/
theorem C1_counterexample :
    (verifyRedditUser "knownuser" envOK twOK aw429).1 = Except.ok false := by
  rfl

/-- C1 (amended): when the platform responds HTTP 429 to the
verification GET, `verifyRedditUser` returns plain `false`,
indistinguishable from "account does not exist"; no rate-limit error is
produced. -/
theorem C1_amended (username : String) (env : Env) (tw : TokenWorld)
    (resp : AboutResponse) (h : resp.status = 429) :
    (verifyRedditUser username env tw ⟨Except.ok resp⟩).1 = Except.ok false := by
  rcases hp : getRedditAccessToken env tw with ⟨r, evs⟩
  cases r with
  | error e => simp [verifyRedditUser, verifyRedditUserTry, hp]
  | ok tok => simp [verifyRedditUser, verifyRedditUserTry, hp, respOk, h]

/-- Witness for C1 (amended) at the 429 fixture. -/
theorem C1_amended_witness :
    (verifyRedditUser "knownuser" envOK twOK ⟨Except.ok ⟨429⟩⟩).1 = Except.ok false :=
  C1_amended "knownuser" envOK twOK ⟨429⟩ rfl

/-! ### C2 -/

/-- C2: the claim states that any failure other than HTTP 404 propagates
to the caller as an error and is never converted into `false`.  The
code's catch block converts every thrown error into `false`: here a
transport failure of the verification GET yields plain `false`. -/
theorem C2_counterexample :
    (verifyRedditUser "knownuser" envOK twOK awNetErr).1 = Except.ok false := by
  rfl

/-- C2 (amended): every failure of the exists operation — token-step
failure, transport failure, or any non-2xx response — is swallowed and
returned as plain `false`; no failure ever propagates to the caller. -/
theorem C2_amended (username : String) (env : Env) (tw : TokenWorld) (aw : AboutWorld)
    (h : ∀ resp, aw.fetchResult = Except.ok resp → respOk resp.status = false) :
    (verifyRedditUser username env tw aw).1 = Except.ok false := by
  rcases hp : getRedditAccessToken env tw with ⟨r, evs⟩
  cases r with
  | error e => simp [verifyRedditUser, verifyRedditUserTry, hp]
  | ok tok =>
    rcases hf : aw.fetchResult with e | resp
    · simp [verifyRedditUser, verifyRedditUserTry, hp, hf]
    · simp [verifyRedditUser, verifyRedditUserTry, hp, hf, h resp hf]

/-- Witness for C2 (amended): a 500 upstream response yields `false`. -/
theorem C2_amended_witness :
    (verifyRedditUser "knownuser" envOK twOK aw500).1 = Except.ok false :=
  C2_amended "knownuser" envOK twOK aw500
    (by intro resp hr; cases hr; rfl)

/-! ### C3 -/

/-- C3: when the token step succeeds, an HTTP 200 response makes
`verifyRedditUser` return `true`, and an HTTP 404 response makes it
return `false` as a normal result — never an error. -/
theorem C3_confirmed (username : String) (env : Env) (tw : TokenWorld)
    (resp : AboutResponse) (htok : ∃ t, (getRedditAccessToken env tw).1 = Except.ok t) :
    (resp.status = 200 →
      (verifyRedditUser username env tw ⟨Except.ok resp⟩).1 = Except.ok true)
    ∧ (resp.status = 404 →
      (verifyRedditUser username env tw ⟨Except.ok resp⟩).1 = Except.ok false) := by
  obtain ⟨t, ht⟩ := htok
  rcases hp : getRedditAccessToken env tw with ⟨r, evs⟩
  rw [hp] at ht
  simp at ht
  constructor
  · intro h200
    simp [verifyRedditUser, verifyRedditUserTry, hp, ht, respOk, h200]
  · intro h404
    simp [verifyRedditUser, verifyRedditUserTry, hp, ht, respOk, h404]

/-- Witness for C3 at a 200 response with the working token fixture. -/
theorem C3_witness :
    (verifyRedditUser "knownuser" envOK twOK ⟨Except.ok ⟨200⟩⟩).1 = Except.ok true :=
  (C3_confirmed "knownuser" envOK twOK ⟨200⟩
    ⟨some "mock_access_token_12345", by rfl⟩).1 rfl

/-! ### C8 -/

/-- C8: `verifyRedditUser` is total and never throws: whatever the token
exchange and the verification request do, it resolves with a boolean. -/
theorem C8_confirmed (username : String) (env : Env) (tw : TokenWorld) (aw : AboutWorld) :
    ∃ b : Bool, (verifyRedditUser username env tw aw).1 = Except.ok b := by
  rcases ht : verifyRedditUserTry username env tw aw with ⟨r, evs⟩
  cases r with
  | error e => exact ⟨false, by simp [verifyRedditUser, ht]⟩
  | ok b => exact ⟨b, by simp [verifyRedditUser, ht]⟩

/-- A token endpoint answering 502 with body "bad gateway". -/
def twBad502 : TokenWorld := ⟨Except.ok ⟨502, "bad gateway", Except.ok none⟩⟩

/-- A top-listing GET answering 200 with an empty listing. -/
def topOK : TopWorld := ⟨Except.ok ⟨200, "", Except.ok []⟩⟩

/-! ### Helper lemmas about the event traces -/

/-- The trace of the token provider is one of two concrete lists: the
bare invocation marker (credentials missing) or the marker followed by
the token-endpoint POST. -/
theorem getRedditAccessToken_events (env : Env) (w : TokenWorld) :
    (getRedditAccessToken env w).2 = [NetEvent.tokenAcquisition]
    ∨ (getRedditAccessToken env w).2
        = [NetEvent.tokenAcquisition,
           NetEvent.tokenEndpointPost
             (tokenFetchInit (env.REDDIT_CLIENT_ID.getD "") (env.REDDIT_CLIENT_SECRET.getD ""))] := by
  unfold getRedditAccessToken
  split
  · left; rfl
  · right
    rcases hf : w.fetchResult with e | resp
    · simp [hf]
    · simp only [hf]
      split
      · rfl
      · rcases hj : resp.jsonAccessToken with e | tok <;> simp [hj]

/-- Every run of the token provider records exactly one invocation of
itself. -/
theorem getRedditAccessToken_one_acquisition (env : Env) (w : TokenWorld) :
    (getRedditAccessToken env w).2.countP (fun e => isTokenAcquisitionEvent e) = 1 := by
  rcases getRedditAccessToken_events env w with h | h <;>
    simp [h, List.countP, List.countP.go, isTokenAcquisitionEvent]

/-- No event of the token provider carries a timeout. -/
theorem getRedditAccessToken_no_timeout (env : Env) (w : TokenWorld) :
    (getRedditAccessToken env w).2.all (fun e => !(eventHasTimeout e)) = true := by
  rcases getRedditAccessToken_events env w with h | h <;>
    simp [h, eventHasTimeout, tokenFetchInit]

/-- The trace of `verifyRedditUser` is the token provider's trace plus a
tail that contains no further token acquisition and no event with a
timeout. -/
theorem verifyRedditUser_trace (username : String) (env : Env) (tw : TokenWorld)
    (aw : AboutWorld) :
    ∃ tail, (verifyRedditUser username env tw aw).2 = (getRedditAccessToken env tw).2 ++ tail
      ∧ tail.countP (fun e => isTokenAcquisitionEvent e) = 0
      ∧ tail.all (fun e => !(eventHasTimeout e)) = true := by
  rcases hp : getRedditAccessToken env tw with ⟨r, evs⟩
  cases r with
  | error e =>
    exact ⟨[], by simp [verifyRedditUser, verifyRedditUserTry, hp], rfl, rfl⟩
  | ok tok =>
    refine ⟨[NetEvent.resourceGet ("https://oauth.reddit.com/user/" ++ username ++ "/about")
              (bearerGetInit tok)], ?_, rfl, by simp [eventHasTimeout, bearerGetInit]⟩
    rcases hf : aw.fetchResult with e | resp <;>
      simp [verifyRedditUser, verifyRedditUserTry, hp, hf]

/-- The trace of `getTop` is the token provider's trace plus a tail that
contains no further token acquisition and no event with a timeout. -/
theorem getTop_trace (subreddit : String) (limit : Int) (env : Env) (tw : TokenWorld)
    (w : TopWorld) :
    ∃ tail, (getTop subreddit limit env tw w).2 = (getRedditAccessToken env tw).2 ++ tail
      ∧ tail.countP (fun e => isTokenAcquisitionEvent e) = 0
      ∧ tail.all (fun e => !(eventHasTimeout e)) = true := by
  rcases hp : getRedditAccessToken env tw with ⟨r, evs⟩
  cases r with
  | error e =>
    exact ⟨[], by simp [getTop, getTopTry, hp], rfl, rfl⟩
  | ok tok =>
    exact ⟨[NetEvent.resourceGet
              ("https://oauth.reddit.com/r/" ++ subreddit ++ "/top.json?limit=" ++ toString limit)
              (bearerGetInit tok)],
           by simp [getTop, getTopTry, hp], rfl,
           by simp [eventHasTimeout, bearerGetInit]⟩

/-! ### C4 -/

/-- C4: with either credential absent, token acquisition fails at once
with the configuration error and performs no network request at all. -/
theorem C4_confirmed (env : Env) (w : TokenWorld)
    (h : env.REDDIT_CLIENT_ID = none ∨ env.REDDIT_CLIENT_SECRET = none) :
    (getRedditAccessToken env w).1
        = Except.error ⟨"Reddit API credentials not configured"⟩
    ∧ (getRedditAccessToken env w).2.countP (fun e => isNetworkRequestEvent e) = 0 := by
  have hcond : (!(truthy env.REDDIT_CLIENT_ID) || !(truthy env.REDDIT_CLIENT_SECRET)) = true := by
    rcases h with h | h <;> simp [h, truthy]
  constructor
  · simp [getRedditAccessToken, hcond]
  · simp [getRedditAccessToken, hcond, List.countP, List.countP.go, isNetworkRequestEvent]

/-- Witness for C4: no client identifier configured. -/
theorem C4_witness :
    (getRedditAccessToken envNoId twOK).1
        = Except.error ⟨"Reddit API credentials not configured"⟩
    ∧ (getRedditAccessToken envNoId twOK).2.countP (fun e => isNetworkRequestEvent e) = 0 :=
  C4_confirmed envNoId twOK (Or.inl rfl)

/-! ### C5 -/

/-- C5: the claim states the error carries both the upstream status and
the upstream body.  At a concrete 500 response with body "boom" the
thrown error's message is built from the body alone; the identical
response with status 403 produces the very same error, and the digits of
the status appear nowhere in the message — so the status is not carried. -/
theorem C5_counterexample :
    (getRedditAccessToken envOK twBad500).1
        = Except.error ⟨"Failed to get Reddit OAuth token: boom"⟩
    ∧ (getRedditAccessToken envOK twBad500).1 = (getRedditAccessToken envOK twBad403).1
    ∧ jsIncludes "Failed to get Reddit OAuth token: boom" "500" = false :=
  ⟨rfl, rfl, rfl⟩

/-- C5 (amended): a non-success HTTP response from the token endpoint
yields an error whose message is "Failed to get Reddit OAuth token: "
followed by the upstream body; the upstream status is not carried — any
other non-success status with the same body gives the same outcome. -/
theorem C5_amended (env : Env) (tw : TokenWorld) (resp : TokenResponse)
    (hid : truthy env.REDDIT_CLIENT_ID = true)
    (hsec : truthy env.REDDIT_CLIENT_SECRET = true)
    (hresp : tw.fetchResult = Except.ok resp) (hok : respOk resp.status = false) :
    (getRedditAccessToken env tw).1
        = Except.error ⟨"Failed to get Reddit OAuth token: " ++ resp.bodyText⟩
    ∧ ∀ s2, respOk s2 = false →
        (getRedditAccessToken env
          ⟨Except.ok ⟨s2, resp.bodyText, resp.jsonAccessToken⟩⟩).1
          = (getRedditAccessToken env tw).1 := by
  constructor
  · simp [getRedditAccessToken, hid, hsec, hresp, hok]
  · intro s2 h2
    simp [getRedditAccessToken, hid, hsec, hresp, hok, h2]

/-- Witness for C5 (amended) at a 502 response with body "bad gateway". -/
theorem C5_amended_witness :
    (getRedditAccessToken envOK twBad502).1
        = Except.error ⟨"Failed to get Reddit OAuth token: bad gateway"⟩ :=
  (C5_amended envOK twBad502 ⟨502, "bad gateway", Except.ok none⟩ rfl rfl rfl rfl).1

/-! ### C6 -/

/-- C6: the claim states that the verification GET and the token POST
each carry a bounded timeout.  In a concrete successful run of
`verifyRedditUser` both outbound requests go out, and neither carries
any timeout. -/
theorem C6_counterexample :
    ((verifyRedditUser "knownuser" envOK twOK aw200).2.filter
        (fun e => isNetworkRequestEvent e)).length = 2
    ∧ ((verifyRedditUser "knownuser" envOK twOK aw200).2.all
        (fun e => !(eventHasTimeout e))) = true :=
  ⟨rfl, rfl⟩

/-- C6 (amended): no call of the core carries any timeout: every event
of every run of `verifyRedditUser` and of `getTop` — the token POST and
the resource GET included — is issued without a bound, so a
non-responding upstream is waited on indefinitely. -/
theorem C6_amended (username subreddit : String) (limit : Int) (env : Env)
    (tw : TokenWorld) (aw : AboutWorld) (w : TopWorld) :
    ((verifyRedditUser username env tw aw).2.all (fun e => !(eventHasTimeout e))) = true
    ∧ ((getTop subreddit limit env tw w).2.all (fun e => !(eventHasTimeout e))) = true := by
  obtain ⟨tail, hev, -, htail⟩ := verifyRedditUser_trace username env tw aw
  obtain ⟨tail2, hev2, -, htail2⟩ := getTop_trace subreddit limit env tw w
  constructor
  · rw [hev, List.all_append, getRedditAccessToken_no_timeout, htail]; rfl
  · rw [hev2, List.all_append, getRedditAccessToken_no_timeout, htail2]; rfl

/-! ### C9 -/

/-- C9: every invocation of `verifyRedditUser` and of `getTop` invokes
`getRedditAccessToken` exactly once — a fresh client-credentials
exchange per call, with no cache in the source to reuse one across
calls. -/
theorem C9_confirmed (username subreddit : String) (limit : Int) (env : Env)
    (tw : TokenWorld) (aw : AboutWorld) (w : TopWorld) :
    (verifyRedditUser username env tw aw).2.countP
        (fun e => isTokenAcquisitionEvent e) = 1
    ∧ (getTop subreddit limit env tw w).2.countP
        (fun e => isTokenAcquisitionEvent e) = 1 := by
  obtain ⟨tail, hev, hcnt, -⟩ := verifyRedditUser_trace username env tw aw
  obtain ⟨tail2, hev2, hcnt2, -⟩ := getTop_trace subreddit limit env tw w
  constructor
  · rw [hev, List.countP_append, getRedditAccessToken_one_acquisition, hcnt]
  · rw [hev2, List.countP_append, getRedditAccessToken_one_acquisition, hcnt2]

/-! ### C10 -/

/-- C10: `getTop` wraps every failure whose message lacks the substring
"rate limit" — the missing-credentials error included — into
"Failed to fetch Reddit top posts: …", and propagates unwrapped exactly
the errors whose message contains "rate limit", the HTTP 429 error in
particular. -/
theorem C10_confirmed (subreddit : String) (limit : Int) (env : Env) (tw : TokenWorld)
    (w : TopWorld) :
    (env.REDDIT_CLIENT_ID = none →
      (getTop subreddit limit env tw w).1
        = Except.error ⟨failMsgHead ++ "Reddit API credentials not configured"⟩)
    ∧ (∀ e, (getTopTry subreddit limit env tw w).1 = Except.error e →
        jsIncludes e.message rateLimitNeedle = false →
        (getTop subreddit limit env tw w).1 = Except.error ⟨failMsgHead ++ e.message⟩)
    ∧ (∀ e, (getTopTry subreddit limit env tw w).1 = Except.error e →
        jsIncludes e.message rateLimitNeedle = true →
        (getTop subreddit limit env tw w).1 = Except.error e)
    ∧ (∀ resp, w.fetchResult = Except.ok resp → resp.status = 429 →
        (∃ t, (getRedditAccessToken env tw).1 = Except.ok t) →
        (getTop subreddit limit env tw w).1
          = Except.error ⟨"Reddit API rate limit exceeded"⟩) := by
  have hwrap : ∀ e, (getTopTry subreddit limit env tw w).1 = Except.error e →
      (getTop subreddit limit env tw w).1 = getTopCatch (Except.error e) := by
    intro e he
    rcases ht : getTopTry subreddit limit env tw w with ⟨r, evs⟩
    rw [ht] at he
    simp at he
    simp [getTop, ht, he]
  refine ⟨?_, ?_, ?_, ?_⟩
  · intro hnone
    have hc : truthy env.REDDIT_CLIENT_ID = false := by simp [hnone, truthy]
    have htry : (getTopTry subreddit limit env tw w).1
        = Except.error ⟨"Reddit API credentials not configured"⟩ := by
      rcases hp : getRedditAccessToken env tw with ⟨r, evs⟩
      have : r = Except.error ⟨"Reddit API credentials not configured"⟩ := by
        have := (C4_confirmed env tw (Or.inl hnone)).1
        rw [hp] at this
        simpa using this
      simp [getTopTry, hp, this]
    rw [hwrap _ htry]
    rfl
  · intro e he hni
    rw [hwrap e he]
    simp [getTopCatch, hni]
  · intro e he hyes
    rw [hwrap e he]
    simp [getTopCatch, hyes]
  · rintro resp hresp h429 ⟨t, ht⟩
    have htry : (getTopTry subreddit limit env tw w).1
        = Except.error ⟨"Reddit API rate limit exceeded"⟩ := by
      rcases hp : getRedditAccessToken env tw with ⟨r, evs⟩
      rw [hp] at ht
      simp at ht
      simp [getTopTry, hp, ht, handleTopResponse, hresp, h429]
    rw [hwrap _ htry]
    rfl

/-- Witness for C10: with no client identifier configured, `getTop`
fails with the wrapped configuration message. -/
theorem C10_witness :
    (getTop "all" 10 envNoId twOK topOK).1
      = Except.error ⟨failMsgHead ++ "Reddit API credentials not configured"⟩ :=
  (C10_confirmed "all" 10 envNoId twOK topOK).1 rfl

/-! ### C7 — the qualification pipeline

The handler behind `POST /api/social-qualify-form` is not among the
provided source files — only its integration test is — so the data model
and the duplicate handling are modelled from the specification. -/

/-- Modelled from the spec: the Applicant row (spec §3) — the handler
source is missing; identity key is the (email, phone) pair, with the
reddit handle and the verified flag alongside. -/
structure Applicant where
  email : String
  phone : String
  reddit_username : String
  reddit_verified : Bool
deriving Repr, DecidableEq

/-- Does row `a` carry the identity key (email, phone)? -/
def sameKey (a : Applicant) (email phone : String) : Bool :=
  a.email == email && a.phone == phone

/-- Number of rows of the store carrying a given (email, phone) key. -/
def countKey (s : List Applicant) (email phone : String) : Nat :=
  s.countP (fun a => sameKey a email phone)

/-- No two rows of the store share an (email, phone) key. -/
def dupFree (s : List Applicant) : Prop :=
  ∀ email phone, countKey s email phone ≤ 1

/-- Modelled from the spec: `select Applicant by (email, phone)` of the
persistence layer (spec §6). -/
def findByEmailPhone (s : List Applicant) (email phone : String) : Option Applicant :=
  s.find? (fun a => sameKey a email phone)

/-- Modelled from the spec: `insert Applicant` with the storage-level
(email, phone) uniqueness constraint as the authoritative backstop
(spec §5, §6, §9): the insert fails with a uniqueness-violation signal
when a row with the same key is already present, and is atomic. -/
def insertApplicant (s : List Applicant) (a : Applicant) :
    Except Unit (List Applicant) :=
  if s.any (fun b => sameKey b a.email a.phone) then Except.error ()
  else Except.ok (a :: s)

/-- Outcome classes of a qualification submission (spec §4.4). -/
inductive QualOutcome where
  | success : QualOutcome
  | duplicateError : QualOutcome
  | verificationFailedError : QualOutcome
  | upstreamFailure : QualOutcome
deriving Repr, DecidableEq

/-- Modelled from the spec: one sequential run of
`QualificationOrchestrator.submit` (spec §4.4): pre-check by
(email, phone) → `DuplicateError`; verification `false` →
`VerificationFailedError`; verification error → propagated upstream
failure; otherwise insert with `verified = true`, mapping an insert-time
uniqueness violation to the same `DuplicateError` as the pre-check. -/
def qualifySubmit (s : List Applicant) (email phone reddit : String)
    (verify : Except JsError Bool) : QualOutcome × List Applicant :=
  match findByEmailPhone s email phone with
  | some _ => (QualOutcome.duplicateError, s)
  | none =>
    match verify with
    | Except.error _ => (QualOutcome.upstreamFailure, s)
    | Except.ok false => (QualOutcome.verificationFailedError, s)
    | Except.ok true =>
      match insertApplicant s ⟨email, phone, reddit, true⟩ with
      | Except.error _ => (QualOutcome.duplicateError, s)
      | Except.ok s2 => (QualOutcome.success, s2)

/-- Where one in-flight submission stands: before its pre-check, past a
negative pre-check and about to insert, or finished. -/
inductive SubPhase where
  | beforeCheck : SubPhase
  | beforeInsert : SubPhase
  | finished : SubPhase
deriving Repr, DecidableEq

/-- One in-flight submission: its phase and, when finished, its outcome. -/
structure SubProc where
  phase : SubPhase
  result : Option QualOutcome
deriving Repr, DecidableEq

/-- A submission that has not run yet. -/
def initProc : SubProc := ⟨SubPhase.beforeCheck, none⟩

/-- Modelled from the spec: one atomic step of an in-flight submission
(verification assumed successful — the claim is about duplicate
prevention of valid inputs).  The pre-check and the insert each read the
authoritative store at the moment they run, so two submissions may both
pass the pre-check before either inserts; the storage constraint inside
`insertApplicant` is the backstop (spec §5). -/
def subStep (store : List Applicant) (p : SubProc) (email phone reddit : String) :
    SubProc × List Applicant :=
  match p.phase with
  | SubPhase.beforeCheck =>
    match findByEmailPhone store email phone with
    | some _ => (⟨SubPhase.finished, some QualOutcome.duplicateError⟩, store)
    | none => (⟨SubPhase.beforeInsert, p.result⟩, store)
  | SubPhase.beforeInsert =>
    match insertApplicant store ⟨email, phone, reddit, true⟩ with
    | Except.error _ => (⟨SubPhase.finished, some QualOutcome.duplicateError⟩, store)
    | Except.ok s2 => (⟨SubPhase.finished, some QualOutcome.success⟩, s2)
  | SubPhase.finished => (p, store)

/-- The joint state of two concurrent submissions of the same input. -/
structure JointState where
  store : List Applicant
  procA : SubProc
  procB : SubProc
deriving Repr, DecidableEq

/-- One scheduler decision: `true` runs a step of A, `false` of B. -/
def jointStep (email phone reddit : String) (st : JointState) (turnA : Bool) :
    JointState :=
  if turnA then
    match subStep st.store st.procA email phone reddit with
    | (p2, s2) => ⟨s2, p2, st.procB⟩
  else
    match subStep st.store st.procB email phone reddit with
    | (p2, s2) => ⟨s2, st.procA, p2⟩

/-- Run a whole schedule of scheduler decisions. -/
def runSchedule (email phone reddit : String) (sched : List Bool) (st : JointState) :
    JointState :=
  sched.foldl (jointStep email phone reddit) st

/-- A store with no row for a key neither finds one… -/
theorem findByEmailPhone_eq_none (s : List Applicant) (email phone : String)
    (h0 : countKey s email phone = 0) :
    findByEmailPhone s email phone = none := by
  rw [findByEmailPhone, List.find?_eq_none]
  intro a ha
  exact List.countP_eq_zero.mp h0 a ha

/-- …nor reports one at insert time. -/
theorem anyKey_eq_false (s : List Applicant) (email phone : String)
    (h0 : countKey s email phone = 0) :
    s.any (fun b => sameKey b email phone) = false := by
  rw [List.any_eq_false]
  intro a ha
  exact List.countP_eq_zero.mp h0 a ha

/-- Inserting a fresh key preserves key-uniqueness of the store. -/
theorem dupFree_cons (s : List Applicant) (a : Applicant)
    (h0 : countKey s a.email a.phone = 0) (hd : dupFree s) :
    dupFree (a :: s) := by
  intro e p
  have hcons : countKey (a :: s) e p
      = countKey s e p + (if sameKey a e p then 1 else 0) := by
    simp [countKey, List.countP_cons]
  by_cases hk : sameKey a e p = true
  · have he : a.email = e ∧ a.phone = p := by
      simpa [sameKey] using hk
    have h2 : countKey s e p = 0 := by rw [← he.1, ← he.2]; exact h0
    rw [hcons, h2]
    simp [hk]
  · rw [hcons]
    have hs := hd e p
    simp [hk]
    omega

/-- Under any complete interleaving of two submissions of the same
(email, phone) input (a four-turn schedule in which each submission gets
its pre-check turn and its insert turn), the final store is the initial
store plus exactly the one new row, and one submission succeeded while
the other ended in the duplicate outcome. -/
theorem runSchedule_two_submissions (s0 : List Applicant) (email phone reddit : String)
    (b1 b2 b3 b4 : Bool) (h0 : countKey s0 email phone = 0)
    (htrue : [b1, b2, b3, b4].count true = 2) :
    (runSchedule email phone reddit [b1, b2, b3, b4] ⟨s0, initProc, initProc⟩).store
        = ⟨email, phone, reddit, true⟩ :: s0
    ∧ (((runSchedule email phone reddit [b1, b2, b3, b4] ⟨s0, initProc, initProc⟩).procA.result,
        (runSchedule email phone reddit [b1, b2, b3, b4] ⟨s0, initProc, initProc⟩).procB.result)
          = (some QualOutcome.success, some QualOutcome.duplicateError)
      ∨ ((runSchedule email phone reddit [b1, b2, b3, b4] ⟨s0, initProc, initProc⟩).procA.result,
        (runSchedule email phone reddit [b1, b2, b3, b4] ⟨s0, initProc, initProc⟩).procB.result)
          = (some QualOutcome.duplicateError, some QualOutcome.success)) := by
  have hfind := findByEmailPhone_eq_none s0 email phone h0
  have hany := anyKey_eq_false s0 email phone h0
  have hkey : sameKey ⟨email, phone, reddit, true⟩ email phone = true := by
    simp [sameKey]
  have hfind2 : findByEmailPhone (⟨email, phone, reddit, true⟩ :: s0) email phone
      = some ⟨email, phone, reddit, true⟩ := by
    rw [findByEmailPhone]
    exact List.find?_cons_of_pos _ hkey
  have hany2 : (⟨email, phone, reddit, true⟩ :: s0).any
      (fun b => sameKey b email phone) = true := by
    simp [List.any_cons, hkey]
  cases b1 <;> cases b2 <;> cases b3 <;> cases b4 <;>
    first
    | (exfalso; revert htrue; decide)
    | (constructor <;>
        simp [runSchedule, jointStep, subStep, initProc, insertApplicant,
              hfind, hany, hfind2, hany2])

/-- C7: starting from any duplicate-free store with no row for the
(email, phone) key, and for any complete interleaving of two concurrent
submissions of that same input: exactly one Applicant row with the key
is persisted, one submission succeeds and the other gets the duplicate
outcome; the store stays duplicate-free; a later submission with the
same email but a different phone still succeeds; and sequentially, the
first submission succeeds while the resubmission of the same
(email, phone) gets the duplicate outcome. -/
theorem C7_confirmed (s0 : List Applicant) (email phone phone2 reddit : String)
    (b1 b2 b3 b4 : Bool)
    (h0 : countKey s0 email phone = 0) (hd : dupFree s0)
    (htrue : [b1, b2, b3, b4].count true = 2) :
    countKey (runSchedule email phone reddit [b1, b2, b3, b4]
        ⟨s0, initProc, initProc⟩).store email phone = 1
    ∧ (((runSchedule email phone reddit [b1, b2, b3, b4] ⟨s0, initProc, initProc⟩).procA.result,
        (runSchedule email phone reddit [b1, b2, b3, b4] ⟨s0, initProc, initProc⟩).procB.result)
          = (some QualOutcome.success, some QualOutcome.duplicateError)
      ∨ ((runSchedule email phone reddit [b1, b2, b3, b4] ⟨s0, initProc, initProc⟩).procA.result,
        (runSchedule email phone reddit [b1, b2, b3, b4] ⟨s0, initProc, initProc⟩).procB.result)
          = (some QualOutcome.duplicateError, some QualOutcome.success))
    ∧ dupFree (runSchedule email phone reddit [b1, b2, b3, b4]
        ⟨s0, initProc, initProc⟩).store
    ∧ (phone ≠ phone2 → countKey s0 email phone2 = 0 →
        (qualifySubmit (runSchedule email phone reddit [b1, b2, b3, b4]
            ⟨s0, initProc, initProc⟩).store email phone2 reddit (Except.ok true)).1
          = QualOutcome.success)
    ∧ ((qualifySubmit s0 email phone reddit (Except.ok true)).1 = QualOutcome.success
       ∧ (qualifySubmit
            (qualifySubmit s0 email phone reddit (Except.ok true)).2
            email phone reddit (Except.ok true)).1 = QualOutcome.duplicateError) := by
  obtain ⟨hstore, hres⟩ :=
    runSchedule_two_submissions s0 email phone reddit b1 b2 b3 b4 h0 htrue
  have hfind := findByEmailPhone_eq_none s0 email phone h0
  have hany := anyKey_eq_false s0 email phone h0
  have hkey : sameKey ⟨email, phone, reddit, true⟩ email phone = true := by
    simp [sameKey]
  have hfind2 : findByEmailPhone (⟨email, phone, reddit, true⟩ :: s0) email phone
      = some ⟨email, phone, reddit, true⟩ := by
    rw [findByEmailPhone]
    exact List.find?_cons_of_pos _ hkey
  have hsub1 : qualifySubmit s0 email phone reddit (Except.ok true)
      = (QualOutcome.success, ⟨email, phone, reddit, true⟩ :: s0) := by
    simp [qualifySubmit, hfind, insertApplicant, hany]
  refine ⟨?_, hres, ?_, ?_, ?_, ?_⟩
  · rw [hstore]
    simp [countKey, List.countP_cons, hkey]
    simpa [countKey] using h0
  · rw [hstore]
    exact dupFree_cons s0 ⟨email, phone, reddit, true⟩ h0 hd
  · intro hne h02
    have hkhead : sameKey ⟨email, phone, reddit, true⟩ email phone2 = false := by
      have hb : (phone == phone2) = false := beq_eq_false_iff_ne.mpr hne
      simp [sameKey, hb]
    have hf0 := findByEmailPhone_eq_none s0 email phone2 h02
    have ha0 := anyKey_eq_false s0 email phone2 h02
    have hf2 : findByEmailPhone (⟨email, phone, reddit, true⟩ :: s0) email phone2
        = none := by
      rw [findByEmailPhone, List.find?_cons_of_neg, ← findByEmailPhone]
      · exact hf0
      · simp [hkhead]
    have ha2 : (⟨email, phone, reddit, true⟩ :: s0).any
        (fun b => sameKey b email phone2) = false := by
      simp [List.any_cons, hkhead, ha0]
    rw [hstore]
    simp [qualifySubmit, hf2, insertApplicant, ha2]
  · rw [hsub1]
  · rw [hsub1]
    simp [qualifySubmit, hfind2]

/-- Witness for C7: empty store, the spec's scenario input, alternating
schedule. -/
theorem C7_witness :
    countKey (runSchedule "a@x.com" "555-0100" "testuser" [true, false, true, false]
        ⟨[], initProc, initProc⟩).store "a@x.com" "555-0100" = 1 :=
  (C7_confirmed [] "a@x.com" "555-0100" "555-0200" "testuser" true false true false
      rfl (fun e p => by simp [countKey]) rfl).1
